import Mathlib

/-!
# Sidecar injection: the patch pipeline of `pkg/injector/patch.go`

A shallow embedding of `createPatch` and `makePatches`.

* Go pointers that are mutated in place (`pod *corev1.Pod`) become explicit state:
  `createPatch` returns the state of `*pod` at return next to the Go return values.
* Go `(T, error)` results are `Except GoError T`.
* Every call to a collaborator is recorded, in program order and with its arguments,
  in `Outcome.calls`.
* Functions of other packages and files (`rewriteHealthProbes`, `getVolumeSpec`,
  `getInitContainerSpec`, `getEnvoySidecarContainerSpec`, `createEnvoyBootstrapConfig`,
  `isMetricsEnabled`, `IssueCertificate`, `NewCertCommonNameWithProxyID`, `json.Marshal`,
  `admission.PatchResponseFromRaw`) and the values of `constants.*` are parameters:
  the theorems hold for every choice of them.
* The diff behind `admission.PatchResponseFromRaw` walks the decoded documents with `range`
  over Go maps, whose iteration order changes from one execution to the next. That order is
  an explicit input of an execution (`MapOrder`).
* Logging and the metrics-store counters do not influence the result and are left out.
-/

namespace Injector

/-! ## Data model -/

/-- Go `error` values, identified by their message. -/
abbrev GoError := String

/-- Go `[]byte`; the nil slice is the empty string. -/
abbrev Bytes := String

/-- The order in which the Go runtime iterates over maps during one execution. -/
abbrev MapOrder := Nat

/-- The part of `corev1.Probe` the embedding keeps. -/
structure Probe where
  Path : String
  Port : Int
  deriving DecidableEq, Repr

/-- The part of `corev1.Container` the embedding keeps. -/
structure Container where
  Name : String
  Image : String
  LivenessProbe : Option Probe
  ReadinessProbe : Option Probe
  StartupProbe : Option Probe
  deriving DecidableEq, Repr

/-- The part of `corev1.Volume` the embedding keeps. -/
structure Volume where
  Name : String
  SecretName : String
  deriving DecidableEq, Repr

/-- Contents of a non-nil Go `map[string]string`, as an association list with unique keys. -/
abbrev StringMap := List (String × String)

/-- Reading `m[k]` with the comma-ok form. -/
def StringMap.get (m : StringMap) (k : String) : Option String :=
  match m with
  | [] => none
  | (k', v) :: rest => if k' = k then some v else StringMap.get rest k

/-- The assignment `m[k] = v`: the entry of `k` is overwritten, or added when absent. -/
def StringMap.set (m : StringMap) (k v : String) : StringMap :=
  match m with
  | [] => [(k, v)]
  | (k', v') :: rest => if k' = k then (k, v) :: rest else (k', v') :: StringMap.set rest k v

/-- Reading a key of a possibly nil map: a nil map has no key. -/
def lookup (m : Option StringMap) (k : String) : Option String :=
  match m with
  | none => none
  | some m => m.get k

/-- The fields of `corev1.PodSpec` that `createPatch` reads or writes. -/
structure PodSpec where
  ServiceAccountName : String
  Volumes : List Volume
  InitContainers : List Container
  Containers : List Container
  deriving DecidableEq, Repr

/-- The fields of `corev1.Pod` that `createPatch` reads or writes; `none` is a nil map. -/
structure Pod where
  UID : String
  Labels : Option StringMap
  Annotations : Option StringMap
  Spec : PodSpec
  deriving DecidableEq, Repr

/-- The value of `runtime.RawExtension`. -/
structure RawExtension where
  Raw : Bytes
  deriving DecidableEq, Repr

/-- The fields of `admissionv1.AdmissionRequest` that are read; `DryRun` is a `*bool`. -/
structure AdmissionRequest where
  Namespace : String
  DryRun : Option Bool
  Object : RawExtension
  deriving DecidableEq, Repr

/-- The type `jsonpatch.JsonPatchOperation`. -/
structure JsonPatchOperation where
  Operation : String
  Path : String
  Value : String
  deriving DecidableEq, Repr

/-- The fields of `admission.Response` that are read. -/
structure Response where
  Patches : List JsonPatchOperation
  Allowed : Bool
  deriving DecidableEq, Repr

/-- The certificate handed out by the certificate manager. -/
structure Certificate where
  CommonName : String
  CertChain : Bytes
  PrivateKey : Bytes
  deriving DecidableEq, Repr

/-- The struct `healthProbes` returned by `rewriteHealthProbes`. -/
structure healthProbes where
  liveness : Option Probe
  readiness : Option Probe
  startup : Option Probe
  deriving DecidableEq, Repr

/-- The secret returned by `createEnvoyBootstrapConfig` (discarded by `createPatch`). -/
structure Secret where
  Name : String
  Namespace : String
  deriving DecidableEq, Repr

/-! ## `uuid.UUID` and its `String` method -/

/-- The type `uuid.UUID`, a `[16]byte`. -/
structure UUID where
  bytes : List (Fin 256)
  len : bytes.length = 16
  deriving DecidableEq

/-- The constant `hextable` of `encoding/hex`. -/
def hextable : String := "0123456789abcdef"

/-- One step of `hex.Encode`: `hextable[v>>4]`, `hextable[v&0x0f]`. -/
def hexByte (v : Fin 256) : List Char :=
  [hextable.data.getD (v.val >>> 4) '0', hextable.data.getD (v.val &&& 0x0f) '0']

/-- The function `hex.Encode`: two characters per source byte. -/
def hexEncode (src : List (Fin 256)) : List Char :=
  match src with
  | [] => []
  | v :: rest => hexByte v ++ hexEncode rest

/-- The Go slice expression `s[a:b]`. -/
def slice (s : List (Fin 256)) (a b : Nat) : List (Fin 256) :=
  (s.drop a).take (b - a)

/-- The function `encodeHex` of the uuid package: the 8-4-4-4-12 form. -/
def encodeHex (uuid : List (Fin 256)) : List Char :=
  hexEncode (slice uuid 0 4) ++ '-' :: (hexEncode (slice uuid 4 6) ++ '-' ::
    (hexEncode (slice uuid 6 8) ++ '-' :: (hexEncode (slice uuid 8 10) ++ '-' ::
      hexEncode (uuid.drop 10))))

/-- The method `UUID.String`, which is also what `%s` prints for a UUID. -/
def UUID.string (uuid : UUID) : String :=
  String.mk (encodeHex uuid.bytes)

/-! ## Collaborators -/

/-- The values of package `constants` that `createPatch` uses. -/
structure Constants where
  XDSCertificateValidityPeriod : Nat
  InitContainerName : String
  PrometheusScrapeAnnotation : String
  PrometheusPortAnnotation : String
  PrometheusPathAnnotation : String
  EnvoyPrometheusInboundListenerPort : Int
  PrometheusScrapePath : String
  EnvoyUniqueIDLabelName : String

/-- The methods of `configurator.Configurator` that `createPatch` calls. -/
structure Configurator where
  GetOutboundIPRangeExclusionList : List String
  GetOutboundPortExclusionList : List Int
  IsPrivilegedInitContainer : Bool
  deriving DecidableEq, Repr

/-- The interface `certificate.Manager`, as far as it is used. -/
structure CertManager where
  IssueCertificate : String → Nat → Except GoError Certificate

/-- The receiver `wh *mutatingWebhook` with its two methods that `createPatch` calls. -/
structure mutatingWebhook where
  certManager : CertManager
  osmNamespace : String
  configurator : Configurator
  createEnvoyBootstrapConfig :
    String → String → String → Certificate → healthProbes → Except GoError Secret
  isMetricsEnabled : String → Except GoError Bool

/-- The package-level functions and library functions `createPatch` and `makePatches` call.
`rewriteHealthProbes` mutates the pod it is given, so it returns the new pod as well; the
three spec builders only read their arguments. `marshalPod` is `json.Marshal` on a pod and
`marshalPatches` is `json.Marshal` on the patch slice. `PatchResponseFromRaw` depends on the
map order of the execution, which decides the order of the operations it emits. -/
structure Package where
  constants : Constants
  NewCertCommonNameWithProxyID : UUID → String → String → String
  rewriteHealthProbes : Pod → Pod × healthProbes
  getVolumeSpec : String → List Volume
  getInitContainerSpec : String → Configurator → List String → List Int → Bool → Container
  getEnvoySidecarContainerSpec : Pod → Configurator → healthProbes → Container
  marshalPod : Pod → Except GoError Bytes
  PatchResponseFromRaw : MapOrder → Bytes → Bytes → Response
  marshalPatches : List JsonPatchOperation → Except GoError Bytes

/-- One call to a collaborator, with its arguments. -/
inductive Call where
  | IssueCertificate (cn : String) (validity : Nat)
  | rewriteHealthProbes (pod : Pod)
  | createEnvoyBootstrapConfig (name ns osmNamespace : String) (cert : Certificate)
      (probes : healthProbes)
  | getVolumeSpec (name : String)
  | getInitContainerSpec (name : String)
  | getEnvoySidecarContainerSpec (pod : Pod) (probes : healthProbes)
  | isMetricsEnabled (ns : String)
  deriving DecidableEq, Repr

/-- What one execution of `createPatch` leaves behind: the Go return values
(`.ok b` is `(b, nil)`, `.error e` is `(nil, e)`), the final state of `*pod`,
and the collaborator calls in program order. -/
structure Outcome where
  result : Except GoError Bytes
  pod : Pod
  calls : List Call

/-! ## The code -/

/-- The function `makePatches`. A failing `json.Marshal(pod)` is logged and `current` stays
the nil slice that `json.Marshal` returns next to an error. -/
def makePatches (pkg : Package) (order : MapOrder) (req : AdmissionRequest) (pod : Pod) :
    List JsonPatchOperation :=
  let original := req.Object.Raw
  let current : Bytes :=
    match pkg.marshalPod pod with
    | .ok b => b
    | .error _ => ""
  let admissionResponse := pkg.PatchResponseFromRaw order original current
  admissionResponse.Patches

/-- The format call `fmt.Sprintf("envoy-bootstrap-config-%s", proxyUUID)`. -/
def envoyBootstrapConfigName (proxyUUID : UUID) : String :=
  "envoy-bootstrap-config-" ++ proxyUUID.string

/-- The condition `req.DryRun != nil && *req.DryRun`. -/
def isDryRun (req : AdmissionRequest) : Bool :=
  match req.DryRun with
  | none => false
  | some b => b

/-- The statements of `createPatch` guarded by `if enableMetrics`. -/
def setMetricsAnnotations (c : Constants) (annotations : Option StringMap) : Option StringMap :=
  let m : StringMap :=
    match annotations with
    | none => []
    | some m => m
  let m := m.set c.PrometheusScrapeAnnotation "true"
  let m := m.set c.PrometheusPortAnnotation (toString c.EnvoyPrometheusInboundListenerPort)
  let m := m.set c.PrometheusPathAnnotation c.PrometheusScrapePath
  some m

/-- The label statements of `createPatch`: create the map when nil, then set the key. -/
def setProxyLabel (c : Constants) (labels : Option StringMap) (proxyUUID : UUID) :
    Option StringMap :=
  let m : StringMap :=
    match labels with
    | none => []
    | some m => m
  some (m.set c.EnvoyUniqueIDLabelName proxyUUID.string)

/-- The pod after the two appends `pod.Spec.Volumes = append(...)` and
`pod.Spec.InitContainers = append(...)`; it is the pod the sidecar builder is given. -/
def appendVolumesAndInit (pkg : Package) (wh : mutatingWebhook) (pod : Pod)
    (envoyBootstrapConfigName : String) : Pod :=
  let pod : Pod :=
    { pod with Spec := { pod.Spec with
        Volumes := pod.Spec.Volumes ++ pkg.getVolumeSpec envoyBootstrapConfigName } }
  let initContainer := pkg.getInitContainerSpec pkg.constants.InitContainerName wh.configurator
    wh.configurator.GetOutboundIPRangeExclusionList wh.configurator.GetOutboundPortExclusionList
    wh.configurator.IsPrivilegedInitContainer
  { pod with Spec := { pod.Spec with
      InitContainers := pod.Spec.InitContainers ++ [initContainer] } }

/-- The pod after the third append, `pod.Spec.Containers = append(pod.Spec.Containers, sidecar)`. -/
def appendSidecar (pkg : Package) (wh : mutatingWebhook) (pod : Pod)
    (originalHealthProbes : healthProbes) : Pod :=
  let sidecar := pkg.getEnvoySidecarContainerSpec pod wh.configurator originalHealthProbes
  { pod with Spec := { pod.Spec with Containers := pod.Spec.Containers ++ [sidecar] } }

/-- The second half of `createPatch`, from the volume append to the return. `pod` is the
pod as `rewriteHealthProbes` left it and `calls` are the calls made so far. -/
def injectSidecar (pkg : Package) (wh : mutatingWebhook) (order : MapOrder) (pod : Pod)
    (req : AdmissionRequest)
    (proxyUUID : UUID) (envoyBootstrapConfigName : String)
    (originalHealthProbes : healthProbes) (calls : List Call) : Outcome :=
  let ns := req.Namespace
  let sidecarPod := appendVolumesAndInit pkg wh pod envoyBootstrapConfigName
  let pod := appendSidecar pkg wh sidecarPod originalHealthProbes
  let calls := calls ++ [Call.getVolumeSpec envoyBootstrapConfigName,
    Call.getInitContainerSpec pkg.constants.InitContainerName,
    Call.getEnvoySidecarContainerSpec sidecarPod originalHealthProbes,
    Call.isMetricsEnabled ns]
  match wh.isMetricsEnabled ns with
  | .error err => ⟨.error err, pod, calls⟩
  | .ok enableMetrics =>
    let pod : Pod :=
      if enableMetrics then
        { pod with Annotations := setMetricsAnnotations pkg.constants pod.Annotations }
      else pod
    let pod : Pod := { pod with Labels := setProxyLabel pkg.constants pod.Labels proxyUUID }
    ⟨pkg.marshalPatches (makePatches pkg order req pod), pod, calls⟩

/-- The method `createPatch`, in an execution whose map iteration order is `order`. -/
def createPatch (pkg : Package) (wh : mutatingWebhook) (order : MapOrder) (pod : Pod)
    (req : AdmissionRequest) (proxyUUID : UUID) : Outcome :=
  let ns := req.Namespace
  let cn := pkg.NewCertCommonNameWithProxyID proxyUUID pod.Spec.ServiceAccountName ns
  let calls := [Call.IssueCertificate cn pkg.constants.XDSCertificateValidityPeriod]
  match wh.certManager.IssueCertificate cn pkg.constants.XDSCertificateValidityPeriod with
  | .error err => ⟨.error err, pod, calls⟩
  | .ok bootstrapCertificate =>
    let calls := calls ++ [Call.rewriteHealthProbes pod]
    let originalHealthProbes := (pkg.rewriteHealthProbes pod).2
    let pod := (pkg.rewriteHealthProbes pod).1
    let envoyBootstrapConfigName := envoyBootstrapConfigName proxyUUID
    if isDryRun req then
      injectSidecar pkg wh order pod req proxyUUID envoyBootstrapConfigName originalHealthProbes
        calls
    else
      let calls := calls ++ [Call.createEnvoyBootstrapConfig envoyBootstrapConfigName ns
        wh.osmNamespace bootstrapCertificate originalHealthProbes]
      match wh.createEnvoyBootstrapConfig envoyBootstrapConfigName ns wh.osmNamespace
          bootstrapCertificate originalHealthProbes with
      | .error err => ⟨.error err, pod, calls⟩
      | .ok _ =>
        injectSidecar pkg wh order pod req proxyUUID envoyBootstrapConfigName
          originalHealthProbes calls

/-- The pod that `injectSidecar` builds when the metrics lookup returns `enableMetrics`. -/
def injectedPod (pkg : Package) (wh : mutatingWebhook) (pod : Pod) (u : UUID)
    (name : String) (probes : healthProbes) (enableMetrics : Bool) : Pod :=
  let appended := appendSidecar pkg wh (appendVolumesAndInit pkg wh pod name) probes
  { appended with
    Annotations :=
      if enableMetrics then setMetricsAnnotations pkg.constants appended.Annotations
      else appended.Annotations
    Labels := setProxyLabel pkg.constants appended.Labels u }

/-- The calls made before `injectSidecar` starts. -/
def callsBeforeInject (pkg : Package) (wh : mutatingWebhook) (pod : Pod)
    (req : AdmissionRequest) (u : UUID) (cert : Certificate) : List Call :=
  [Call.IssueCertificate
      (pkg.NewCertCommonNameWithProxyID u pod.Spec.ServiceAccountName req.Namespace)
      pkg.constants.XDSCertificateValidityPeriod,
    Call.rewriteHealthProbes pod] ++
  if isDryRun req then []
  else [Call.createEnvoyBootstrapConfig (envoyBootstrapConfigName u) req.Namespace
    wh.osmNamespace cert (pkg.rewriteHealthProbes pod).2]

/-! ## Predicates on executions -/

/-- Whether a recorded call is a call to `createEnvoyBootstrapConfig`. -/
def Call.isBootstrapConfigCall (c : Call) : Bool :=
  match c with
  | .createEnvoyBootstrapConfig _ _ _ _ _ => true
  | _ => false

/-- Whether a recorded call is a call to `isMetricsEnabled`. -/
def Call.isMetricsCall (c : Call) : Bool :=
  match c with
  | .isMetricsEnabled _ => true
  | _ => false

/-- The bootstrap config exists after the execution: `createEnvoyBootstrapConfig` was called
and returned without error. -/
def bootstrapConfigCreated (wh : mutatingWebhook) (o : Outcome) : Bool :=
  o.calls.any fun c =>
    match c with
    | .createEnvoyBootstrapConfig name ns osmNamespace cert probes =>
      (wh.createEnvoyBootstrapConfig name ns osmNamespace cert probes).toBool
    | _ => false

/-- The frame of `rewriteHealthProbes` at a pod: it changes nothing but the entries of
`pod.Spec.Containers`, and keeps their number, order and names. -/
def rewritesProbesInPlace (pkg : Package) (pod : Pod) : Prop :=
  (pkg.rewriteHealthProbes pod).1 =
      { pod with Spec := { pod.Spec with
          Containers := (pkg.rewriteHealthProbes pod).1.Spec.Containers } } ∧
    (pkg.rewriteHealthProbes pod).1.Spec.Containers.map Container.Name =
      pod.Spec.Containers.map Container.Name

instance (pkg : Package) (pod : Pod) : Decidable (rewritesProbesInPlace pkg pod) := by
  unfold rewritesProbesInPlace
  exact inferInstance

/-! ## A concrete instance

The scenario of the specification: proxy identifier `P1`, service account `sa-1`,
namespace `ns-1`. -/

/-- The proxy identifier `P1`. -/
def P1 : UUID :=
  ⟨[0x12, 0x3e, 0x45, 0x67, 0xe8, 0x9b, 0x12, 0xd3, 0xa4, 0x56, 0x42, 0x66, 0x14, 0x17, 0x40,
    0x00], rfl⟩

/-- A second proxy identifier. -/
def P2 : UUID :=
  ⟨[0x12, 0x3e, 0x45, 0x67, 0xe8, 0x9b, 0x12, 0xd3, 0xa4, 0x56, 0x42, 0x66, 0x14, 0x17, 0x40,
    0x01], rfl⟩

/-- Values for the constants. -/
def demoConstants : Constants where
  XDSCertificateValidityPeriod := 87600
  InitContainerName := "osm-init"
  PrometheusScrapeAnnotation := "prometheus.io/scrape"
  PrometheusPortAnnotation := "prometheus.io/port"
  PrometheusPathAnnotation := "prometheus.io/path"
  EnvoyPrometheusInboundListenerPort := 15010
  PrometheusScrapePath := "/stats/prometheus"
  EnvoyUniqueIDLabelName := "osm-proxy-uuid"

/-- A configurator. -/
def demoConfigurator : Configurator where
  GetOutboundIPRangeExclusionList := ["10.0.0.0/8"]
  GetOutboundPortExclusionList := [6379]
  IsPrivilegedInitContainer := false

/-- A probe rewrite: the liveness probe of every container is redirected to the proxy, and
the last liveness probe found is captured. -/
def demoRewriteHealthProbes (pod : Pod) : Pod × healthProbes :=
  ({ pod with Spec := { pod.Spec with Containers := pod.Spec.Containers.map fun c =>
      { c with LivenessProbe := c.LivenessProbe.map fun _ => ⟨"/osm-liveness-probe", 15901⟩ } } },
   ⟨(pod.Spec.Containers.filterMap Container.LivenessProbe).getLast?, none, none⟩)

/-- Package-level collaborators. Serialising a pod succeeds; the diff of an original against
an empty `current` fails inside `PatchResponseFromRaw`, whose error response carries no
patches; otherwise the diff has two operations, emitted in the order the map iteration
gives; a nil patch slice is encoded as `null`. -/
def demoPackage : Package where
  constants := demoConstants
  NewCertCommonNameWithProxyID := fun u sa ns => u.string ++ "." ++ sa ++ "." ++ ns
  rewriteHealthProbes := demoRewriteHealthProbes
  getVolumeSpec := fun name => [⟨"envoy-bootstrap-config-volume", name⟩]
  getInitContainerSpec := fun name _ _ _ _ => ⟨name, "osm-init-image", none, none, none⟩
  getEnvoySidecarContainerSpec := fun _ _ probes =>
    ⟨"envoy", "envoy-image", probes.liveness, probes.readiness, probes.startup⟩
  marshalPod := fun pod => .ok ("pod " ++ pod.UID)
  PatchResponseFromRaw := fun order _ current =>
    if current = "" then ⟨[], false⟩
    else if order % 2 = 0 then
      ⟨[⟨"add", "/metadata", current⟩, ⟨"add", "/spec", current⟩], true⟩
    else ⟨[⟨"add", "/spec", current⟩, ⟨"add", "/metadata", current⟩], true⟩
  marshalPatches := fun ps =>
    if ps = [] then .ok "null" else .ok (String.join (ps.map JsonPatchOperation.Path))

/-- The same collaborators, with a pod serialisation that fails. -/
def failingMarshalPackage : Package :=
  { demoPackage with marshalPod := fun _ => .error "json: error calling MarshalJSON" }

/-- The same collaborators, with an encoding of the patch slice that fails. -/
def failingEncodePackage : Package :=
  { demoPackage with marshalPatches := fun _ => .error "json: unsupported value" }

/-- A webhook whose collaborators all succeed; metrics are enabled in namespace `ns-1`. -/
def demoWebhook : mutatingWebhook where
  certManager := ⟨fun cn _ => .ok ⟨cn, "chain", "key"⟩⟩
  osmNamespace := "osm-system"
  configurator := demoConfigurator
  createEnvoyBootstrapConfig := fun name ns _ _ _ => .ok ⟨name, ns⟩
  isMetricsEnabled := fun ns => .ok (decide (ns = "ns-1"))

/-- A webhook whose metrics lookup fails. -/
def metricsFailingWebhook : mutatingWebhook :=
  { demoWebhook with isMetricsEnabled := fun _ => .error "namespace not found" }

/-- A webhook whose certificate manager fails. -/
def certFailingWebhook : mutatingWebhook :=
  { demoWebhook with certManager := ⟨fun _ _ => .error "issuance failed"⟩ }

/-- A pod with one container, one init container, one volume, a label and no annotations. -/
def demoPod : Pod where
  UID := "pod-1"
  Labels := some [("app", "bookstore")]
  Annotations := none
  Spec :=
    { ServiceAccountName := "sa-1"
      Volumes := [⟨"data", "data-secret"⟩]
      InitContainers := [⟨"setup", "busybox", none, none, none⟩]
      Containers := [⟨"bookstore", "bookstore-image", some ⟨"/healthz", 8080⟩, none, none⟩] }

/-- The request of the scenario, with the given dry-run flag. -/
def demoRequest (dryRun : Option Bool) : AdmissionRequest where
  Namespace := "ns-1"
  DryRun := dryRun
  Object := ⟨"pod pod-1 original"⟩

/-! ## Lemmas on maps -/

theorem StringMap.get_set_self (m : StringMap) (k v : String) : (m.set k v).get k = some v := by
  induction m with
  | nil => simp [StringMap.set, StringMap.get]
  | cons e rest ih =>
    obtain ⟨k', v'⟩ := e
    by_cases h : k' = k
    · simp [StringMap.set, StringMap.get, h]
    · simp [StringMap.set, StringMap.get, h, ih]

theorem StringMap.get_set_of_ne (m : StringMap) (k v k₀ : String) (hne : k₀ ≠ k) :
    (m.set k v).get k₀ = m.get k₀ := by
  induction m with
  | nil =>
    have h : ¬ k = k₀ := fun h => hne h.symm
    simp [StringMap.set, StringMap.get, h]
  | cons e rest ih =>
    obtain ⟨k', v'⟩ := e
    by_cases h : k' = k
    · have h₀ : ¬ k = k₀ := fun h => hne h.symm
      subst h
      simp [StringMap.set, StringMap.get, h₀]
    · by_cases h₁ : k' = k₀
      · subst h₁
        simp [StringMap.set, StringMap.get, h]
      · simp [StringMap.set, StringMap.get, h, h₁, ih]

theorem lookup_setProxyLabel_self (c : Constants) (labels : Option StringMap) (u : UUID) :
    lookup (setProxyLabel c labels u) c.EnvoyUniqueIDLabelName = some u.string := by
  cases labels <;> simp [setProxyLabel, lookup, StringMap.get_set_self]

theorem lookup_setProxyLabel_of_ne (c : Constants) (labels : Option StringMap) (u : UUID)
    (k : String) (hne : k ≠ c.EnvoyUniqueIDLabelName) :
    lookup (setProxyLabel c labels u) k = lookup labels k := by
  cases labels with
  | none =>
    simp [setProxyLabel, lookup, StringMap.get, StringMap.set]
    exact fun h => hne h.symm
  | some m => simp [setProxyLabel, lookup, StringMap.get_set_of_ne _ _ _ _ hne]

/-! ## Unfolding `createPatch` along its paths -/

theorem createPatch_of_cert_error (pkg : Package) (wh : mutatingWebhook) (order : MapOrder)
    (pod : Pod)
    (req : AdmissionRequest) (u : UUID) (err : GoError)
    (h : wh.certManager.IssueCertificate
      (pkg.NewCertCommonNameWithProxyID u pod.Spec.ServiceAccountName req.Namespace)
      pkg.constants.XDSCertificateValidityPeriod = .error err) :
    createPatch pkg wh order pod req u =
      ⟨.error err, pod, [Call.IssueCertificate
        (pkg.NewCertCommonNameWithProxyID u pod.Spec.ServiceAccountName req.Namespace)
        pkg.constants.XDSCertificateValidityPeriod]⟩ := by
  simp [createPatch, h]

theorem createPatch_of_dryRun (pkg : Package) (wh : mutatingWebhook) (order : MapOrder) (pod : Pod)
    (req : AdmissionRequest) (u : UUID) (cert : Certificate)
    (h : wh.certManager.IssueCertificate
      (pkg.NewCertCommonNameWithProxyID u pod.Spec.ServiceAccountName req.Namespace)
      pkg.constants.XDSCertificateValidityPeriod = .ok cert)
    (hdry : isDryRun req = true) :
    createPatch pkg wh order pod req u =
      injectSidecar pkg wh order (pkg.rewriteHealthProbes pod).1 req u (envoyBootstrapConfigName u)
        (pkg.rewriteHealthProbes pod).2
        [Call.IssueCertificate
          (pkg.NewCertCommonNameWithProxyID u pod.Spec.ServiceAccountName req.Namespace)
          pkg.constants.XDSCertificateValidityPeriod,
         Call.rewriteHealthProbes pod] := by
  simp [createPatch, h, hdry]

theorem createPatch_of_bootstrap_error (pkg : Package) (wh : mutatingWebhook) (order : MapOrder)
    (pod : Pod)
    (req : AdmissionRequest) (u : UUID) (cert : Certificate) (err : GoError)
    (h : wh.certManager.IssueCertificate
      (pkg.NewCertCommonNameWithProxyID u pod.Spec.ServiceAccountName req.Namespace)
      pkg.constants.XDSCertificateValidityPeriod = .ok cert)
    (hdry : isDryRun req = false)
    (hboot : wh.createEnvoyBootstrapConfig (envoyBootstrapConfigName u) req.Namespace
      wh.osmNamespace cert (pkg.rewriteHealthProbes pod).2 = .error err) :
    createPatch pkg wh order pod req u =
      ⟨.error err, (pkg.rewriteHealthProbes pod).1,
        [Call.IssueCertificate
          (pkg.NewCertCommonNameWithProxyID u pod.Spec.ServiceAccountName req.Namespace)
          pkg.constants.XDSCertificateValidityPeriod,
         Call.rewriteHealthProbes pod,
         Call.createEnvoyBootstrapConfig (envoyBootstrapConfigName u) req.Namespace
           wh.osmNamespace cert (pkg.rewriteHealthProbes pod).2]⟩ := by
  simp [createPatch, h, hdry, hboot]

theorem createPatch_of_bootstrap_ok (pkg : Package) (wh : mutatingWebhook) (order : MapOrder)
    (pod : Pod)
    (req : AdmissionRequest) (u : UUID) (cert : Certificate) (secret : Secret)
    (h : wh.certManager.IssueCertificate
      (pkg.NewCertCommonNameWithProxyID u pod.Spec.ServiceAccountName req.Namespace)
      pkg.constants.XDSCertificateValidityPeriod = .ok cert)
    (hdry : isDryRun req = false)
    (hboot : wh.createEnvoyBootstrapConfig (envoyBootstrapConfigName u) req.Namespace
      wh.osmNamespace cert (pkg.rewriteHealthProbes pod).2 = .ok secret) :
    createPatch pkg wh order pod req u =
      injectSidecar pkg wh order (pkg.rewriteHealthProbes pod).1 req u (envoyBootstrapConfigName u)
        (pkg.rewriteHealthProbes pod).2
        [Call.IssueCertificate
          (pkg.NewCertCommonNameWithProxyID u pod.Spec.ServiceAccountName req.Namespace)
          pkg.constants.XDSCertificateValidityPeriod,
         Call.rewriteHealthProbes pod,
         Call.createEnvoyBootstrapConfig (envoyBootstrapConfigName u) req.Namespace
           wh.osmNamespace cert (pkg.rewriteHealthProbes pod).2] := by
  simp [createPatch, h, hdry, hboot]

theorem injectSidecar_calls (pkg : Package) (wh : mutatingWebhook) (order : MapOrder) (pod : Pod)
    (req : AdmissionRequest) (u : UUID) (name : String) (probes : healthProbes)
    (calls : List Call) :
    (injectSidecar pkg wh order pod req u name probes calls).calls =
      calls ++ [Call.getVolumeSpec name,
        Call.getInitContainerSpec pkg.constants.InitContainerName,
        Call.getEnvoySidecarContainerSpec (appendVolumesAndInit pkg wh pod name) probes,
        Call.isMetricsEnabled req.Namespace] := by
  cases h : wh.isMetricsEnabled req.Namespace <;> simp [injectSidecar, h]

theorem injectSidecar_of_metrics_error (pkg : Package) (wh : mutatingWebhook) (order : MapOrder)
    (pod : Pod)
    (req : AdmissionRequest) (u : UUID) (name : String) (probes : healthProbes)
    (calls : List Call) (err : GoError) (h : wh.isMetricsEnabled req.Namespace = .error err) :
    (injectSidecar pkg wh order pod req u name probes calls).result = .error err ∧
    (injectSidecar pkg wh order pod req u name probes calls).pod =
      appendSidecar pkg wh (appendVolumesAndInit pkg wh pod name) probes := by
  simp [injectSidecar, h]

theorem injectSidecar_of_metrics_ok (pkg : Package) (wh : mutatingWebhook) (order : MapOrder)
    (pod : Pod)
    (req : AdmissionRequest) (u : UUID) (name : String) (probes : healthProbes)
    (calls : List Call) (m : Bool) (h : wh.isMetricsEnabled req.Namespace = .ok m) :
    (injectSidecar pkg wh order pod req u name probes calls).pod =
      injectedPod pkg wh pod u name probes m ∧
    (injectSidecar pkg wh order pod req u name probes calls).result =
      pkg.marshalPatches (makePatches pkg order req (injectedPod pkg wh pod u name probes m)) := by
  cases m <;> simp [injectSidecar, h, injectedPod]

/-! ## C1 and C2: dry run, and failure of the certificate manager -/

/-- C2: when `IssueCertificate` returns an error, `createPatch` returns no patch and that
same error, the only collaborator call made is the call to `IssueCertificate` (so neither
`createEnvoyBootstrapConfig` nor `isMetricsEnabled` is invoked), and the pod is unchanged. -/
theorem createPatch_issueCertificate_error (pkg : Package) (wh : mutatingWebhook) (order : MapOrder)
    (pod : Pod) (req : AdmissionRequest) (u : UUID) (err : GoError)
    (hcert : wh.certManager.IssueCertificate
      (pkg.NewCertCommonNameWithProxyID u pod.Spec.ServiceAccountName req.Namespace)
      pkg.constants.XDSCertificateValidityPeriod = .error err) :
    (createPatch pkg wh order pod req u).result = .error err ∧
    (createPatch pkg wh order pod req u).pod = pod ∧
    (createPatch pkg wh order pod req u).calls =
      [Call.IssueCertificate
        (pkg.NewCertCommonNameWithProxyID u pod.Spec.ServiceAccountName req.Namespace)
        pkg.constants.XDSCertificateValidityPeriod] ∧
    (∀ c ∈ (createPatch pkg wh order pod req u).calls,
      c.isBootstrapConfigCall = false ∧ c.isMetricsCall = false) := by
  rw [createPatch_of_cert_error pkg wh order pod req u err hcert]
  refine ⟨rfl, rfl, rfl, ?_⟩
  intro c hc
  simp at hc
  subst hc
  exact ⟨rfl, rfl⟩

/-- C2, at a certificate manager that fails. -/
theorem createPatch_issueCertificate_error_witness :
    (createPatch demoPackage certFailingWebhook 0 demoPod (demoRequest none) P1).result =
      .error "issuance failed" ∧
    (createPatch demoPackage certFailingWebhook 0 demoPod (demoRequest none) P1).pod = demoPod :=
  ⟨(createPatch_issueCertificate_error demoPackage certFailingWebhook 0 demoPod
      (demoRequest none) P1 "issuance failed" rfl).1,
   (createPatch_issueCertificate_error demoPackage certFailingWebhook 0 demoPod
      (demoRequest none) P1 "issuance failed" rfl).2.1⟩

/-! ## C3: the bootstrap config and the returned patch -/

theorem isDryRun_eq_false (req : AdmissionRequest) (hdry : req.DryRun ≠ some true) :
    isDryRun req = false := by
  unfold isDryRun
  cases h : req.DryRun with
  | none => rfl
  | some b =>
    cases b with
    | false => rfl
    | true => exact absurd h hdry

/-- C3 as stated fails: at a request that is not a dry run, with a metrics lookup that
fails, the bootstrap config is created and `createPatch` returns an error and no patch. -/
theorem createPatch_bootstrap_created_without_patch :
    (demoRequest (some false)).DryRun ≠ some true ∧
    bootstrapConfigCreated metricsFailingWebhook
      (createPatch demoPackage metricsFailingWebhook 0 demoPod (demoRequest (some false)) P1) =
        true ∧
    (createPatch demoPackage metricsFailingWebhook 0 demoPod (demoRequest (some false)) P1).result
      = .error "namespace not found" ∧
    ¬ (bootstrapConfigCreated metricsFailingWebhook
        (createPatch demoPackage metricsFailingWebhook 0 demoPod (demoRequest (some false)) P1) =
          true ↔
       ∃ b, (createPatch demoPackage metricsFailingWebhook 0 demoPod (demoRequest (some false))
         P1).result = .ok b) := by
  have hres : (createPatch demoPackage metricsFailingWebhook 0 demoPod (demoRequest (some false))
      P1).result = .error "namespace not found" := rfl
  refine ⟨by decide, rfl, hres, ?_⟩
  intro h
  obtain ⟨b, hb⟩ := h.mp rfl
  rw [hres] at hb
  exact Except.noConfusion hb

/-- C3, amended: for a request that is not a dry run, `createPatch` returns a patch with a
nil error exactly when the bootstrap config was created and, after it, the metrics lookup
and the final encoding both succeeded. So a patch is never returned without the bootstrap
config, and a created bootstrap config comes with a patch unless a later step fails. The
bootstrap config is created exactly when the certificate is issued and
`createEnvoyBootstrapConfig` succeeds, and that function is called at most once. -/
theorem createPatch_patch_iff_created_and_rest_succeed (pkg : Package) (wh : mutatingWebhook)
    (order : MapOrder)
    (pod : Pod) (req : AdmissionRequest) (u : UUID) (hdry : req.DryRun ≠ some true) :
    ((∃ b, (createPatch pkg wh order pod req u).result = .ok b) ↔
      bootstrapConfigCreated wh (createPatch pkg wh order pod req u) = true ∧
      (∃ m, wh.isMetricsEnabled req.Namespace = .ok m) ∧
      (∃ b, pkg.marshalPatches (makePatches pkg order req (createPatch pkg wh order pod req u).pod) =
        .ok b)) ∧
    (bootstrapConfigCreated wh (createPatch pkg wh order pod req u) = true ↔
      ∃ cert secret,
        wh.certManager.IssueCertificate
          (pkg.NewCertCommonNameWithProxyID u pod.Spec.ServiceAccountName req.Namespace)
          pkg.constants.XDSCertificateValidityPeriod = .ok cert ∧
        wh.createEnvoyBootstrapConfig ("envoy-bootstrap-config-" ++ u.string) req.Namespace
          wh.osmNamespace cert (pkg.rewriteHealthProbes pod).2 = .ok secret) ∧
    ((createPatch pkg wh order pod req u).calls.filter Call.isBootstrapConfigCall).length ≤ 1 := by
  have hd := isDryRun_eq_false req hdry
  cases hcert : wh.certManager.IssueCertificate
      (pkg.NewCertCommonNameWithProxyID u pod.Spec.ServiceAccountName req.Namespace)
      pkg.constants.XDSCertificateValidityPeriod with
  | error err =>
    rw [createPatch_of_cert_error pkg wh order pod req u err hcert]
    simp [bootstrapConfigCreated, Call.isBootstrapConfigCall]
  | ok cert =>
    cases hboot : wh.createEnvoyBootstrapConfig (envoyBootstrapConfigName u) req.Namespace
        wh.osmNamespace cert (pkg.rewriteHealthProbes pod).2 with
    | error err =>
      have hboot' := hboot
      unfold envoyBootstrapConfigName at hboot'
      rw [createPatch_of_bootstrap_error pkg wh order pod req u cert err hcert hd hboot]
      simp [bootstrapConfigCreated, Call.isBootstrapConfigCall, hboot, hboot', Except.toBool]
    | ok secret =>
      have hboot' := hboot
      unfold envoyBootstrapConfigName at hboot'
      rw [createPatch_of_bootstrap_ok pkg wh order pod req u cert secret hcert hd hboot]
      have hcreated : bootstrapConfigCreated wh
          (injectSidecar pkg wh order (pkg.rewriteHealthProbes pod).1 req u
            (envoyBootstrapConfigName u) (pkg.rewriteHealthProbes pod).2
            [Call.IssueCertificate
              (pkg.NewCertCommonNameWithProxyID u pod.Spec.ServiceAccountName req.Namespace)
              pkg.constants.XDSCertificateValidityPeriod,
             Call.rewriteHealthProbes pod,
             Call.createEnvoyBootstrapConfig (envoyBootstrapConfigName u) req.Namespace
               wh.osmNamespace cert (pkg.rewriteHealthProbes pod).2]) = true := by
        simp [bootstrapConfigCreated, injectSidecar_calls, hboot, Except.toBool]
      refine ⟨?_, ?_, ?_⟩
      · cases hm : wh.isMetricsEnabled req.Namespace with
        | error e =>
          obtain ⟨hres, _⟩ := injectSidecar_of_metrics_error pkg wh order (pkg.rewriteHealthProbes pod).1
            req u (envoyBootstrapConfigName u) (pkg.rewriteHealthProbes pod).2 _ e hm
          rw [hres]
          simp
        | ok m =>
          obtain ⟨hpod, hres⟩ := injectSidecar_of_metrics_ok pkg wh order
            (pkg.rewriteHealthProbes pod).1 req u (envoyBootstrapConfigName u)
            (pkg.rewriteHealthProbes pod).2
            [Call.IssueCertificate
              (pkg.NewCertCommonNameWithProxyID u pod.Spec.ServiceAccountName req.Namespace)
              pkg.constants.XDSCertificateValidityPeriod,
             Call.rewriteHealthProbes pod,
             Call.createEnvoyBootstrapConfig (envoyBootstrapConfigName u) req.Namespace
               wh.osmNamespace cert (pkg.rewriteHealthProbes pod).2] m hm
          rw [hcreated, hres, hpod]
          simp
      · rw [hcreated]
        simp [hboot']
      · simp [injectSidecar_calls, Call.isBootstrapConfigCall, List.filter]

/-- C3 amended, at the scenario request with dry-run false: a patch is returned and the
bootstrap config was created. -/
theorem createPatch_patch_iff_created_and_rest_succeed_witness :
    (demoRequest (some false)).DryRun ≠ some true ∧
    ((∃ b, (createPatch demoPackage demoWebhook 0 demoPod (demoRequest (some false)) P1).result
        = .ok b) ↔
      bootstrapConfigCreated demoWebhook
        (createPatch demoPackage demoWebhook 0 demoPod (demoRequest (some false)) P1) = true ∧
      (∃ m, demoWebhook.isMetricsEnabled (demoRequest (some false)).Namespace = .ok m) ∧
      (∃ b, demoPackage.marshalPatches (makePatches demoPackage 0 (demoRequest (some false))
        (createPatch demoPackage demoWebhook 0 demoPod (demoRequest (some false)) P1).pod) =
          .ok b)) :=
  ⟨by decide, (createPatch_patch_iff_created_and_rest_succeed demoPackage demoWebhook 0 demoPod
    (demoRequest (some false)) P1 (by decide)).1⟩

/-! ## The paths of `createPatch` -/

theorem createPatch_of_reaching_inject (pkg : Package) (wh : mutatingWebhook) (order : MapOrder)
    (pod : Pod)
    (req : AdmissionRequest) (u : UUID) (cert : Certificate)
    (hcert : wh.certManager.IssueCertificate
      (pkg.NewCertCommonNameWithProxyID u pod.Spec.ServiceAccountName req.Namespace)
      pkg.constants.XDSCertificateValidityPeriod = .ok cert)
    (hboot : isDryRun req = true ∨
      ∃ secret, wh.createEnvoyBootstrapConfig (envoyBootstrapConfigName u) req.Namespace
        wh.osmNamespace cert (pkg.rewriteHealthProbes pod).2 = .ok secret) :
    createPatch pkg wh order pod req u =
      injectSidecar pkg wh order (pkg.rewriteHealthProbes pod).1 req u (envoyBootstrapConfigName u)
        (pkg.rewriteHealthProbes pod).2 (callsBeforeInject pkg wh pod req u cert) := by
  by_cases hd : isDryRun req = true
  · rw [createPatch_of_dryRun pkg wh order pod req u cert hcert hd]
    simp [callsBeforeInject, hd]
  · have hd' : isDryRun req = false := by simpa using hd
    rcases hboot with h | ⟨secret, h⟩
    · exact absurd h hd
    · rw [createPatch_of_bootstrap_ok pkg wh order pod req u cert secret hcert hd' h]
      simp [callsBeforeInject, hd']

/-- Every execution takes one of three paths: the certificate manager fails, the creation of
the bootstrap config fails, or the second half of `createPatch` runs. -/
theorem createPatch_paths (pkg : Package) (wh : mutatingWebhook) (order : MapOrder) (pod : Pod)
    (req : AdmissionRequest) (u : UUID) :
    (∃ err, createPatch pkg wh order pod req u =
      ⟨.error err, pod, [Call.IssueCertificate
        (pkg.NewCertCommonNameWithProxyID u pod.Spec.ServiceAccountName req.Namespace)
        pkg.constants.XDSCertificateValidityPeriod]⟩) ∨
    (∃ cert err, createPatch pkg wh order pod req u =
      ⟨.error err, (pkg.rewriteHealthProbes pod).1,
        [Call.IssueCertificate
          (pkg.NewCertCommonNameWithProxyID u pod.Spec.ServiceAccountName req.Namespace)
          pkg.constants.XDSCertificateValidityPeriod,
         Call.rewriteHealthProbes pod,
         Call.createEnvoyBootstrapConfig (envoyBootstrapConfigName u) req.Namespace
           wh.osmNamespace cert (pkg.rewriteHealthProbes pod).2]⟩) ∨
    (∃ cert, createPatch pkg wh order pod req u =
      injectSidecar pkg wh order (pkg.rewriteHealthProbes pod).1 req u (envoyBootstrapConfigName u)
        (pkg.rewriteHealthProbes pod).2 (callsBeforeInject pkg wh pod req u cert)) := by
  cases hcert : wh.certManager.IssueCertificate
      (pkg.NewCertCommonNameWithProxyID u pod.Spec.ServiceAccountName req.Namespace)
      pkg.constants.XDSCertificateValidityPeriod with
  | error err => exact Or.inl ⟨err, createPatch_of_cert_error pkg wh order pod req u err hcert⟩
  | ok cert =>
    by_cases hd : isDryRun req = true
    · exact Or.inr (Or.inr ⟨cert,
        createPatch_of_reaching_inject pkg wh order pod req u cert hcert (Or.inl hd)⟩)
    · have hd' : isDryRun req = false := by simpa using hd
      cases hboot : wh.createEnvoyBootstrapConfig (envoyBootstrapConfigName u) req.Namespace
          wh.osmNamespace cert (pkg.rewriteHealthProbes pod).2 with
      | error err =>
        exact Or.inr (Or.inl ⟨cert, err,
          createPatch_of_bootstrap_error pkg wh order pod req u cert err hcert hd' hboot⟩)
      | ok secret =>
        exact Or.inr (Or.inr ⟨cert,
          createPatch_of_reaching_inject pkg wh order pod req u cert hcert (Or.inr ⟨secret, hboot⟩)⟩)

/-- An execution that returns a patch ran the second half with a successful metrics lookup. -/
theorem createPatch_ok_pod (pkg : Package) (wh : mutatingWebhook) (order : MapOrder) (pod : Pod)
    (req : AdmissionRequest) (u : UUID) (patch : Bytes)
    (hok : (createPatch pkg wh order pod req u).result = .ok patch) :
    ∃ m, wh.isMetricsEnabled req.Namespace = .ok m ∧
      (createPatch pkg wh order pod req u).pod =
        injectedPod pkg wh (pkg.rewriteHealthProbes pod).1 u (envoyBootstrapConfigName u)
          (pkg.rewriteHealthProbes pod).2 m := by
  rcases createPatch_paths pkg wh order pod req u with ⟨err, h⟩ | ⟨cert, err, h⟩ | ⟨cert, h⟩
  · rw [h] at hok
    exact Except.noConfusion hok
  · rw [h] at hok
    exact Except.noConfusion hok
  · rw [h] at hok ⊢
    cases hm : wh.isMetricsEnabled req.Namespace with
    | error e =>
      rw [(injectSidecar_of_metrics_error pkg wh order _ req u _ _ _ e hm).1] at hok
      exact Except.noConfusion hok
    | ok m => exact ⟨m, rfl, (injectSidecar_of_metrics_ok pkg wh order _ req u _ _ _ m hm).1⟩

/-- An execution that calls `isMetricsEnabled` ran the second half. -/
theorem createPatch_metrics_called_pod (pkg : Package) (wh : mutatingWebhook) (order : MapOrder)
    (pod : Pod)
    (req : AdmissionRequest) (u : UUID)
    (hcalled : Call.isMetricsEnabled req.Namespace ∈ (createPatch pkg wh order pod req u).calls)
    (m : Bool) (hm : wh.isMetricsEnabled req.Namespace = .ok m) :
    (createPatch pkg wh order pod req u).pod =
      injectedPod pkg wh (pkg.rewriteHealthProbes pod).1 u (envoyBootstrapConfigName u)
        (pkg.rewriteHealthProbes pod).2 m := by
  rcases createPatch_paths pkg wh order pod req u with ⟨err, h⟩ | ⟨cert, err, h⟩ | ⟨cert, h⟩
  · rw [h] at hcalled
    simp at hcalled
  · rw [h] at hcalled
    simp at hcalled
  · rw [h]
    exact (injectSidecar_of_metrics_ok pkg wh order _ req u _ _ _ m hm).1

/-! ## C4: a failing serialisation of the mutated pod -/

theorem makePatches_of_marshal_error (pkg : Package) (order : MapOrder)
    (req : AdmissionRequest) (pod : Pod)
    (err : GoError) (h : pkg.marshalPod pod = .error err) :
    makePatches pkg order req pod = (pkg.PatchResponseFromRaw order req.Object.Raw "").Patches := by
  simp [makePatches, h]

/-- C4: when the serialisation of the mutated pod fails with `err`, the error is dropped:
`createPatch` returns the encoding of the patches that `PatchResponseFromRaw` gives for the
original bytes and the nil slice, a value in which `err` does not occur. -/
theorem createPatch_marshalPod_error_swallowed (pkg : Package) (wh : mutatingWebhook)
    (order : MapOrder)
    (pod : Pod) (req : AdmissionRequest) (u : UUID) (cert : Certificate) (m : Bool)
    (err : GoError)
    (hcert : wh.certManager.IssueCertificate
      (pkg.NewCertCommonNameWithProxyID u pod.Spec.ServiceAccountName req.Namespace)
      pkg.constants.XDSCertificateValidityPeriod = .ok cert)
    (hboot : isDryRun req = true ∨
      ∃ secret, wh.createEnvoyBootstrapConfig (envoyBootstrapConfigName u) req.Namespace
        wh.osmNamespace cert (pkg.rewriteHealthProbes pod).2 = .ok secret)
    (hm : wh.isMetricsEnabled req.Namespace = .ok m)
    (hmarshal : pkg.marshalPod (createPatch pkg wh order pod req u).pod = .error err) :
    (createPatch pkg wh order pod req u).result =
      pkg.marshalPatches (pkg.PatchResponseFromRaw order req.Object.Raw "").Patches := by
  rw [createPatch_of_reaching_inject pkg wh order pod req u cert hcert hboot] at hmarshal ⊢
  obtain ⟨hpod, hres⟩ := injectSidecar_of_metrics_ok pkg wh order (pkg.rewriteHealthProbes pod).1 req u
    (envoyBootstrapConfigName u) (pkg.rewriteHealthProbes pod).2
    (callsBeforeInject pkg wh pod req u cert) m hm
  rw [hpod] at hmarshal
  rw [hres, makePatches_of_marshal_error pkg order req _ err hmarshal]

/-- C4, at a pod whose serialisation fails: the caller gets the bytes `null` and a nil
error. -/
theorem createPatch_marshalPod_error_swallowed_witness :
    failingMarshalPackage.marshalPod
      (createPatch failingMarshalPackage demoWebhook 0 demoPod (demoRequest none) P1).pod =
        .error "json: error calling MarshalJSON" ∧
    (createPatch failingMarshalPackage demoWebhook 0 demoPod (demoRequest none) P1).result =
      .ok "null" :=
  ⟨rfl, (createPatch_marshalPod_error_swallowed failingMarshalPackage demoWebhook 0 demoPod
    (demoRequest none) P1 ⟨_, "chain", "key"⟩ true "json: error calling MarshalJSON" rfl
    (Or.inr ⟨_, rfl⟩) rfl rfl).trans rfl⟩

/-! ## C5, C6, C7: the mutated pod -/

theorem rewritesProbesInPlace_fields (pkg : Package) (pod : Pod)
    (hframe : rewritesProbesInPlace pkg pod) :
    (pkg.rewriteHealthProbes pod).1.Labels = pod.Labels ∧
    (pkg.rewriteHealthProbes pod).1.Annotations = pod.Annotations ∧
    (pkg.rewriteHealthProbes pod).1.Spec.Volumes = pod.Spec.Volumes ∧
    (pkg.rewriteHealthProbes pod).1.Spec.InitContainers = pod.Spec.InitContainers := by
  obtain ⟨h, _⟩ := hframe
  refine ⟨?_, ?_, ?_, ?_⟩
  · exact (congrArg Pod.Labels h).trans rfl
  · exact (congrArg Pod.Annotations h).trans rfl
  · exact (congrArg (fun p => p.Spec.Volumes) h).trans rfl
  · exact (congrArg (fun p => p.Spec.InitContainers) h).trans rfl

/-- C5: when `createPatch` returns a patch without error, and `rewriteHealthProbes` rewrote
the existing containers in place, the init containers of the mutated pod are the original
ones followed by the one built by `getInitContainerSpec`, its containers are the existing
ones (as rewritten: same number, same names in the same order) followed by the Envoy
sidecar, and its volumes are the original ones followed by
`getVolumeSpec` of the bootstrap-config name. -/
theorem createPatch_appends_one_init_container_and_one_sidecar (pkg : Package)
    (wh : mutatingWebhook)
    (order : MapOrder) (pod : Pod) (req : AdmissionRequest) (u : UUID) (patch : Bytes)
    (hok : (createPatch pkg wh order pod req u).result = .ok patch)
    (hframe : rewritesProbesInPlace pkg pod) :
    (createPatch pkg wh order pod req u).pod.Spec.InitContainers =
      pod.Spec.InitContainers ++
        [pkg.getInitContainerSpec pkg.constants.InitContainerName wh.configurator
          wh.configurator.GetOutboundIPRangeExclusionList
          wh.configurator.GetOutboundPortExclusionList
          wh.configurator.IsPrivilegedInitContainer] ∧
    (createPatch pkg wh order pod req u).pod.Spec.InitContainers.length =
      pod.Spec.InitContainers.length + 1 ∧
    (createPatch pkg wh order pod req u).pod.Spec.Containers =
      (pkg.rewriteHealthProbes pod).1.Spec.Containers ++
        [pkg.getEnvoySidecarContainerSpec
          (appendVolumesAndInit pkg wh (pkg.rewriteHealthProbes pod).1
            ("envoy-bootstrap-config-" ++ u.string))
          wh.configurator (pkg.rewriteHealthProbes pod).2] ∧
    (createPatch pkg wh order pod req u).pod.Spec.Containers.length =
      pod.Spec.Containers.length + 1 ∧
    (createPatch pkg wh order pod req u).pod.Spec.Containers.dropLast.map Container.Name =
      pod.Spec.Containers.map Container.Name ∧
    (createPatch pkg wh order pod req u).pod.Spec.Volumes =
      pod.Spec.Volumes ++ pkg.getVolumeSpec ("envoy-bootstrap-config-" ++ u.string) := by
  obtain ⟨m, _, hpod⟩ := createPatch_ok_pod pkg wh order pod req u patch hok
  obtain ⟨_, _, hvol, hinit⟩ := rewritesProbesInPlace_fields pkg pod hframe
  have hnames := hframe.2
  have hlen : (pkg.rewriteHealthProbes pod).1.Spec.Containers.length =
      pod.Spec.Containers.length := by
    simpa using congrArg List.length hnames
  have hcont : (createPatch pkg wh order pod req u).pod.Spec.Containers =
      (pkg.rewriteHealthProbes pod).1.Spec.Containers ++
        [pkg.getEnvoySidecarContainerSpec
          (appendVolumesAndInit pkg wh (pkg.rewriteHealthProbes pod).1
            ("envoy-bootstrap-config-" ++ u.string))
          wh.configurator (pkg.rewriteHealthProbes pod).2] := by
    rw [hpod]; rfl
  have hinit' : (createPatch pkg wh order pod req u).pod.Spec.InitContainers =
      pod.Spec.InitContainers ++
        [pkg.getInitContainerSpec pkg.constants.InitContainerName wh.configurator
          wh.configurator.GetOutboundIPRangeExclusionList
          wh.configurator.GetOutboundPortExclusionList
          wh.configurator.IsPrivilegedInitContainer] := by
    rw [hpod, ← hinit]; rfl
  refine ⟨hinit', ?_, hcont, ?_, ?_, ?_⟩
  · rw [hinit']; simp
  · rw [hcont]; simp [hlen]
  · rw [hcont, List.dropLast_concat]; exact hnames
  · rw [hpod, ← hvol]; rfl

/-- C5, at the scenario: one init container and one container more than the original. -/
theorem createPatch_appends_one_init_container_and_one_sidecar_witness :
    (createPatch demoPackage demoWebhook 0 demoPod (demoRequest none) P1).result =
      .ok "/metadata/spec" ∧
    rewritesProbesInPlace demoPackage demoPod ∧
    (createPatch demoPackage demoWebhook 0 demoPod (demoRequest none) P1).pod.Spec.InitContainers
      = demoPod.Spec.InitContainers ++ [⟨"osm-init", "osm-init-image", none, none, none⟩] ∧
    (createPatch demoPackage demoWebhook 0 demoPod (demoRequest none) P1).pod.Spec.Containers.length
      = demoPod.Spec.Containers.length + 1 :=
  ⟨rfl, by decide,
    (createPatch_appends_one_init_container_and_one_sidecar demoPackage demoWebhook 0 demoPod
      (demoRequest none) P1 "/metadata/spec" rfl (by decide)).1,
    (createPatch_appends_one_init_container_and_one_sidecar demoPackage demoWebhook 0 demoPod
      (demoRequest none) P1 "/metadata/spec" rfl (by decide)).2.2.2.1⟩

/-- C6: when `createPatch` returns a patch without error, and `rewriteHealthProbes` rewrote
the existing containers in place, the final label map is not nil, maps
`constants.EnvoyUniqueIDLabelName` to `proxyUUID.String()`, gives every other key the value
it had in the original map, has a key exactly when the original had it or it is the
Envoy-UID key, and holds only that key when the original map was nil. -/
theorem createPatch_sets_proxy_uuid_label (pkg : Package) (wh : mutatingWebhook) (order : MapOrder)
    (pod : Pod)
    (req : AdmissionRequest) (u : UUID) (patch : Bytes)
    (hok : (createPatch pkg wh order pod req u).result = .ok patch)
    (hframe : rewritesProbesInPlace pkg pod) :
    (createPatch pkg wh order pod req u).pod.Labels ≠ none ∧
    lookup (createPatch pkg wh order pod req u).pod.Labels pkg.constants.EnvoyUniqueIDLabelName =
      some u.string ∧
    (∀ k, k ≠ pkg.constants.EnvoyUniqueIDLabelName →
      lookup (createPatch pkg wh order pod req u).pod.Labels k = lookup pod.Labels k) ∧
    (∀ k, (lookup (createPatch pkg wh order pod req u).pod.Labels k).isSome = true ↔
      (lookup pod.Labels k).isSome = true ∨ k = pkg.constants.EnvoyUniqueIDLabelName) ∧
    (pod.Labels = none →
      (createPatch pkg wh order pod req u).pod.Labels =
        some [(pkg.constants.EnvoyUniqueIDLabelName, u.string)]) := by
  obtain ⟨m, _, hpod⟩ := createPatch_ok_pod pkg wh order pod req u patch hok
  obtain ⟨hlab, _, _, _⟩ := rewritesProbesInPlace_fields pkg pod hframe
  have hlabels : (createPatch pkg wh order pod req u).pod.Labels =
      setProxyLabel pkg.constants pod.Labels u := by
    rw [hpod, ← hlab]; rfl
  rw [hlabels]
  refine ⟨?_, lookup_setProxyLabel_self _ _ _,
    fun k hk => lookup_setProxyLabel_of_ne _ _ _ k hk, ?_, ?_⟩
  · simp [setProxyLabel]
  · intro k
    by_cases hk : k = pkg.constants.EnvoyUniqueIDLabelName
    · subst hk
      simp [lookup_setProxyLabel_self]
    · simp [lookup_setProxyLabel_of_ne _ _ _ k hk, hk]
  · intro hnil
    simp [setProxyLabel, hnil, StringMap.set]

/-- C6, at the scenario: the label `osm-proxy-uuid` is `P1`, the label `app` is kept. -/
theorem createPatch_sets_proxy_uuid_label_witness :
    (createPatch demoPackage demoWebhook 0 demoPod (demoRequest none) P1).result =
      .ok "/metadata/spec" ∧
    rewritesProbesInPlace demoPackage demoPod ∧
    lookup (createPatch demoPackage demoWebhook 0 demoPod (demoRequest none) P1).pod.Labels
      "osm-proxy-uuid" = some "123e4567-e89b-12d3-a456-426614174000" ∧
    lookup (createPatch demoPackage demoWebhook 0 demoPod (demoRequest none) P1).pod.Labels
      "app" = some "bookstore" :=
  ⟨rfl, by decide,
    (createPatch_sets_proxy_uuid_label demoPackage demoWebhook 0 demoPod (demoRequest none) P1
      "/metadata/spec" rfl (by decide)).2.1,
    (createPatch_sets_proxy_uuid_label demoPackage demoWebhook 0 demoPod (demoRequest none) P1
      "/metadata/spec" rfl (by decide)).2.2.1 "app" (by decide)⟩

theorem lookup_setMetricsAnnotations (c : Constants) (annotations : Option StringMap)
    (hsp : c.PrometheusScrapeAnnotation ≠ c.PrometheusPortAnnotation)
    (hsq : c.PrometheusScrapeAnnotation ≠ c.PrometheusPathAnnotation)
    (hpq : c.PrometheusPortAnnotation ≠ c.PrometheusPathAnnotation) :
    lookup (setMetricsAnnotations c annotations) c.PrometheusScrapeAnnotation = some "true" ∧
    lookup (setMetricsAnnotations c annotations) c.PrometheusPortAnnotation =
      some (toString c.EnvoyPrometheusInboundListenerPort) ∧
    lookup (setMetricsAnnotations c annotations) c.PrometheusPathAnnotation =
      some c.PrometheusScrapePath ∧
    (∀ k, k ≠ c.PrometheusScrapeAnnotation → k ≠ c.PrometheusPortAnnotation →
      k ≠ c.PrometheusPathAnnotation →
      lookup (setMetricsAnnotations c annotations) k = lookup annotations k) := by
  refine ⟨?_, ?_, ?_, ?_⟩
  · simp only [setMetricsAnnotations, lookup]
    rw [StringMap.get_set_of_ne _ _ _ _ hsq, StringMap.get_set_of_ne _ _ _ _ hsp,
      StringMap.get_set_self]
  · simp only [setMetricsAnnotations, lookup]
    rw [StringMap.get_set_of_ne _ _ _ _ hpq, StringMap.get_set_self]
  · simp only [setMetricsAnnotations, lookup]
    rw [StringMap.get_set_self]
  · intro k h₁ h₂ h₃
    simp only [setMetricsAnnotations, lookup]
    rw [StringMap.get_set_of_ne _ _ _ _ h₃, StringMap.get_set_of_ne _ _ _ _ h₂,
      StringMap.get_set_of_ne _ _ _ _ h₁]
    cases annotations <;> rfl

theorem setMetricsAnnotations_nil (c : Constants)
    (hsp : c.PrometheusScrapeAnnotation ≠ c.PrometheusPortAnnotation)
    (hsq : c.PrometheusScrapeAnnotation ≠ c.PrometheusPathAnnotation)
    (hpq : c.PrometheusPortAnnotation ≠ c.PrometheusPathAnnotation) :
    setMetricsAnnotations c none =
      some [(c.PrometheusScrapeAnnotation, "true"),
        (c.PrometheusPortAnnotation, toString c.EnvoyPrometheusInboundListenerPort),
        (c.PrometheusPathAnnotation, c.PrometheusScrapePath)] := by
  simp [setMetricsAnnotations, StringMap.set, hsp, hsq, hpq]

/-- C7: in an execution that calls `isMetricsEnabled`, with `rewriteHealthProbes` rewriting
the existing containers in place and the three Prometheus annotation keys distinct: when
the lookup returns true, the final annotations map the scrape key to `true`, the port key to
the decimal string of `EnvoyPrometheusInboundListenerPort` and the path key to
`PrometheusScrapePath`, every other key keeps its original value, and a nil map is replaced
by a map holding only these three keys; when the lookup returns false, the annotation map
is the original one (nil stays nil). -/
theorem createPatch_metrics_annotations (pkg : Package) (wh : mutatingWebhook) (order : MapOrder)
    (pod : Pod)
    (req : AdmissionRequest) (u : UUID)
    (hcalled : Call.isMetricsEnabled req.Namespace ∈ (createPatch pkg wh order pod req u).calls)
    (hframe : rewritesProbesInPlace pkg pod)
    (hsp : pkg.constants.PrometheusScrapeAnnotation ≠ pkg.constants.PrometheusPortAnnotation)
    (hsq : pkg.constants.PrometheusScrapeAnnotation ≠ pkg.constants.PrometheusPathAnnotation)
    (hpq : pkg.constants.PrometheusPortAnnotation ≠ pkg.constants.PrometheusPathAnnotation) :
    (wh.isMetricsEnabled req.Namespace = .ok true →
      lookup (createPatch pkg wh order pod req u).pod.Annotations
        pkg.constants.PrometheusScrapeAnnotation = some "true" ∧
      lookup (createPatch pkg wh order pod req u).pod.Annotations
        pkg.constants.PrometheusPortAnnotation =
          some (toString pkg.constants.EnvoyPrometheusInboundListenerPort) ∧
      lookup (createPatch pkg wh order pod req u).pod.Annotations
        pkg.constants.PrometheusPathAnnotation = some pkg.constants.PrometheusScrapePath ∧
      (∀ k, k ≠ pkg.constants.PrometheusScrapeAnnotation →
        k ≠ pkg.constants.PrometheusPortAnnotation →
        k ≠ pkg.constants.PrometheusPathAnnotation →
        lookup (createPatch pkg wh order pod req u).pod.Annotations k = lookup pod.Annotations k) ∧
      (pod.Annotations = none →
        (createPatch pkg wh order pod req u).pod.Annotations =
          some [(pkg.constants.PrometheusScrapeAnnotation, "true"),
            (pkg.constants.PrometheusPortAnnotation,
              toString pkg.constants.EnvoyPrometheusInboundListenerPort),
            (pkg.constants.PrometheusPathAnnotation, pkg.constants.PrometheusScrapePath)])) ∧
    (wh.isMetricsEnabled req.Namespace = .ok false →
      (createPatch pkg wh order pod req u).pod.Annotations = pod.Annotations) := by
  obtain ⟨_, hann, _, _⟩ := rewritesProbesInPlace_fields pkg pod hframe
  constructor
  · intro hm
    have hpod := createPatch_metrics_called_pod pkg wh order pod req u hcalled true hm
    have h : (createPatch pkg wh order pod req u).pod.Annotations =
        setMetricsAnnotations pkg.constants pod.Annotations := by
      rw [hpod, ← hann]; rfl
    rw [h]
    obtain ⟨h₁, h₂, h₃, h₄⟩ := lookup_setMetricsAnnotations pkg.constants pod.Annotations
      hsp hsq hpq
    refine ⟨h₁, h₂, h₃, h₄, ?_⟩
    intro hnil
    rw [hnil]
    exact setMetricsAnnotations_nil pkg.constants hsp hsq hpq
  · intro hm
    have hpod := createPatch_metrics_called_pod pkg wh order pod req u hcalled false hm
    rw [hpod, ← hann]; rfl

/-- C7, at the scenario, where metrics are enabled for `ns-1` and the pod has no
annotations: the final annotations are exactly the three scrape annotations. -/
theorem createPatch_metrics_annotations_witness :
    Call.isMetricsEnabled (demoRequest none).Namespace ∈
      (createPatch demoPackage demoWebhook 0 demoPod (demoRequest none) P1).calls ∧
    rewritesProbesInPlace demoPackage demoPod ∧
    demoWebhook.isMetricsEnabled (demoRequest none).Namespace = .ok true ∧
    (createPatch demoPackage demoWebhook 0 demoPod (demoRequest none) P1).pod.Annotations =
      some [("prometheus.io/scrape", "true"), ("prometheus.io/port", "15010"),
        ("prometheus.io/path", "/stats/prometheus")] :=
  ⟨by decide, by decide, rfl,
    ((createPatch_metrics_annotations demoPackage demoWebhook 0 demoPod (demoRequest none) P1
      (by decide) (by decide) (by decide) (by decide) (by decide)).1 rfl).2.2.2.2 rfl⟩

/-! ## The string form of a UUID determines it -/

theorem hextable_getD_inj : ∀ a b : Fin 16,
    hextable.data.getD a.val '0' = hextable.data.getD b.val '0' → a = b := by
  decide

theorem byte_eq_of_nibbles (v w : Fin 256) (hhi : v.val >>> 4 = w.val >>> 4)
    (hlo : v.val &&& 0x0f = w.val &&& 0x0f) : v = w := by
  apply Fin.ext
  have h₁ : ∀ n : Nat, n >>> 4 = n / 16 := fun n => by
    rw [Nat.shiftRight_eq_div_pow]
  have h₂ : ∀ n : Nat, n &&& 0x0f = n % 16 := fun n =>
    Nat.and_pow_two_sub_one_eq_mod n 4
  rw [h₁, h₁] at hhi
  rw [h₂, h₂] at hlo
  omega

theorem hexByte_inj (v w : Fin 256) (h : hexByte v = hexByte w) : v = w := by
  have hv : v.val >>> 4 < 16 := by
    rw [Nat.shiftRight_eq_div_pow]; have := v.isLt; omega
  have hw : w.val >>> 4 < 16 := by
    rw [Nat.shiftRight_eq_div_pow]; have := w.isLt; omega
  have hv' : v.val &&& 0x0f < 16 := by
    rw [Nat.and_pow_two_sub_one_eq_mod v.val 4]; omega
  have hw' : w.val &&& 0x0f < 16 := by
    rw [Nat.and_pow_two_sub_one_eq_mod w.val 4]; omega
  simp only [hexByte, List.cons.injEq, and_true] at h
  have hhi := hextable_getD_inj ⟨_, hv⟩ ⟨_, hw⟩ h.1
  have hlo := hextable_getD_inj ⟨_, hv'⟩ ⟨_, hw'⟩ h.2
  exact byte_eq_of_nibbles v w (Fin.mk.inj hhi) (Fin.mk.inj hlo)

theorem hexEncode_length (src : List (Fin 256)) : (hexEncode src).length = 2 * src.length := by
  induction src with
  | nil => rfl
  | cons v rest ih => simp [hexEncode, hexByte, ih]; omega

theorem hexEncode_inj (a b : List (Fin 256)) (h : hexEncode a = hexEncode b) : a = b := by
  induction a generalizing b with
  | nil =>
    cases b with
    | nil => rfl
    | cons w rest => simp [hexEncode, hexByte] at h
  | cons v rest ih =>
    cases b with
    | nil => simp [hexEncode, hexByte] at h
    | cons w rest' =>
      simp only [hexEncode, hexByte, List.cons_append, List.nil_append, List.cons.injEq] at h
      obtain ⟨h₁, h₂, h₃⟩ := h
      have hvw : v = w := hexByte_inj v w (by
        simp only [hexByte, List.cons.injEq, and_true]
        exact ⟨h₁, h₂⟩)
      rw [hvw, ih rest' h₃]

theorem drop_eq_slice_append (s : List (Fin 256)) (a b : Nat) (hab : a ≤ b) :
    s.drop a = slice s a b ++ s.drop b := by
  unfold slice
  have h : s.drop b = (s.drop a).drop (b - a) := by
    rw [List.drop_drop]; congr 1; omega
  rw [h, List.take_append_drop]

theorem slice_length (s : List (Fin 256)) (a b : Nat) (hb : b ≤ s.length) :
    (slice s a b).length = b - a := by
  unfold slice
  simp; omega

theorem encodeHex_inj (a b : List (Fin 256)) (ha : a.length = 16) (hb : b.length = 16)
    (h : encodeHex a = encodeHex b) : a = b := by
  unfold encodeHex at h
  have len : ∀ (s : List (Fin 256)) (i j : Nat), s.length = 16 → i ≤ j → j ≤ 16 →
      (hexEncode (slice s i j)).length = 2 * (j - i) := by
    intro s i j hs hij hj
    rw [hexEncode_length, slice_length s i j (by omega)]
  obtain ⟨h₁, h⟩ := List.append_inj h
    ((len a 0 4 ha (by omega) (by omega)).trans (len b 0 4 hb (by omega) (by omega)).symm)
  obtain ⟨h₂, h⟩ := List.append_inj (List.cons.inj h).2
    ((len a 4 6 ha (by omega) (by omega)).trans (len b 4 6 hb (by omega) (by omega)).symm)
  obtain ⟨h₃, h⟩ := List.append_inj (List.cons.inj h).2
    ((len a 6 8 ha (by omega) (by omega)).trans (len b 6 8 hb (by omega) (by omega)).symm)
  obtain ⟨h₄, h⟩ := List.append_inj (List.cons.inj h).2
    ((len a 8 10 ha (by omega) (by omega)).trans (len b 8 10 hb (by omega) (by omega)).symm)
  have h₅ := hexEncode_inj _ _ (List.cons.inj h).2
  have e₁ := hexEncode_inj _ _ h₁
  have e₂ := hexEncode_inj _ _ h₂
  have e₃ := hexEncode_inj _ _ h₃
  have e₄ := hexEncode_inj _ _ h₄
  have split : ∀ s : List (Fin 256), s =
      slice s 0 4 ++ (slice s 4 6 ++ (slice s 6 8 ++ (slice s 8 10 ++ s.drop 10))) := by
    intro s
    rw [← drop_eq_slice_append s 8 10 (by omega), ← drop_eq_slice_append s 6 8 (by omega),
      ← drop_eq_slice_append s 4 6 (by omega), ← drop_eq_slice_append s 0 4 (by omega)]
    rfl
  rw [split a, split b, e₁, e₂, e₃, e₄, h₅]

theorem UUID.string_inj (u v : UUID) (h : u.string = v.string) : u = v := by
  unfold UUID.string at h
  have hb := encodeHex_inj u.bytes v.bytes u.len v.len (congrArg String.data h)
  cases u; cases v
  simp at hb
  subst hb
  rfl

theorem envoyBootstrapConfigName_inj (u v : UUID) :
    envoyBootstrapConfigName u = envoyBootstrapConfigName v ↔ u = v := by
  constructor
  · intro h
    unfold envoyBootstrapConfigName at h
    have hd := congrArg String.data h
    rw [String.data_append, String.data_append] at hd
    exact UUID.string_inj u v (String.ext (List.append_cancel_left hd))
  · intro h; rw [h]

/-! ## C8: the dry-run flag and the patch -/

/-- C8 as stated fails. At the scenario, where the certificate is issued, the bootstrap
config is created and the metrics lookup succeeds, an execution with `DryRun` true and one
with `DryRun` false return different patch bytes when the diff emits its operations in a
different order; and with the same collaborators succeeding and a failing encoding of the
patch slice the returned error is not nil. -/
theorem createPatch_dryRun_bytes_differ :
    demoWebhook.certManager.IssueCertificate
      (demoPackage.NewCertCommonNameWithProxyID P1 demoPod.Spec.ServiceAccountName "ns-1")
      demoPackage.constants.XDSCertificateValidityPeriod =
        .ok ⟨"123e4567-e89b-12d3-a456-426614174000.sa-1.ns-1", "chain", "key"⟩ ∧
    demoWebhook.createEnvoyBootstrapConfig ("envoy-bootstrap-config-" ++ P1.string) "ns-1"
      demoWebhook.osmNamespace ⟨"123e4567-e89b-12d3-a456-426614174000.sa-1.ns-1", "chain", "key"⟩
      (demoPackage.rewriteHealthProbes demoPod).2 =
        .ok ⟨"envoy-bootstrap-config-123e4567-e89b-12d3-a456-426614174000", "ns-1"⟩ ∧
    demoWebhook.isMetricsEnabled "ns-1" = .ok true ∧
    (createPatch demoPackage demoWebhook 0 demoPod (demoRequest (some true)) P1).result =
      .ok "/metadata/spec" ∧
    (createPatch demoPackage demoWebhook 1 demoPod (demoRequest (some false)) P1).result =
      .ok "/spec/metadata" ∧
    (createPatch demoPackage demoWebhook 0 demoPod (demoRequest (some true)) P1).result ≠
      (createPatch demoPackage demoWebhook 1 demoPod (demoRequest (some false)) P1).result ∧
    (createPatch failingEncodePackage demoWebhook 0 demoPod (demoRequest (some true)) P1).result
      = .error "json: unsupported value" := by
  have h₀ : (createPatch demoPackage demoWebhook 0 demoPod (demoRequest (some true)) P1).result
      = .ok "/metadata/spec" := rfl
  have h₁ : (createPatch demoPackage demoWebhook 1 demoPod (demoRequest (some false)) P1).result
      = .ok "/spec/metadata" := rfl
  refine ⟨rfl, rfl, rfl, h₀, h₁, ?_, rfl⟩
  rw [h₀, h₁]
  intro h
  exact absurd (Except.ok.inj h) (by decide)

/-- C8, amended: with fixed collaborators for which the certificate is issued, the bootstrap
config is created and the metrics lookup succeeds, the dry-run flag (true, false or nil)
and the map order change nothing in the mutated pod; every execution returns the encoding
of the patches that `makePatches` computes from that same pod, so the error is nil exactly
when this encoding succeeds; and two executions whose diffs emit the same operations, as
they do under the same map order, return the same bytes and the same error whatever their
dry-run flags are. -/
theorem createPatch_dryRun_same_diff_input (pkg : Package) (wh : mutatingWebhook) (pod : Pod)
    (req : AdmissionRequest) (u : UUID) (cert : Certificate) (secret : Secret) (m : Bool)
    (hcert : wh.certManager.IssueCertificate
      (pkg.NewCertCommonNameWithProxyID u pod.Spec.ServiceAccountName req.Namespace)
      pkg.constants.XDSCertificateValidityPeriod = .ok cert)
    (hboot : wh.createEnvoyBootstrapConfig ("envoy-bootstrap-config-" ++ u.string) req.Namespace
      wh.osmNamespace cert (pkg.rewriteHealthProbes pod).2 = .ok secret)
    (hm : wh.isMetricsEnabled req.Namespace = .ok m) :
    (∀ (d₁ d₂ : Option Bool) (o₁ o₂ : MapOrder),
      (createPatch pkg wh o₁ pod { req with DryRun := d₁ } u).pod =
        (createPatch pkg wh o₂ pod { req with DryRun := d₂ } u).pod) ∧
    (∀ (d : Option Bool) (o : MapOrder),
      (createPatch pkg wh o pod { req with DryRun := d } u).result =
        pkg.marshalPatches (makePatches pkg o req
          (createPatch pkg wh o pod { req with DryRun := d } u).pod)) ∧
    (∀ (d : Option Bool) (o : MapOrder) (b : Bytes),
      (createPatch pkg wh o pod { req with DryRun := d } u).result = .ok b ↔
        pkg.marshalPatches (makePatches pkg o req
          (createPatch pkg wh o pod { req with DryRun := d } u).pod) = .ok b) ∧
    (∀ (d₁ d₂ : Option Bool) (o₁ o₂ : MapOrder),
      makePatches pkg o₁ req (createPatch pkg wh o₁ pod { req with DryRun := d₁ } u).pod =
        makePatches pkg o₂ req (createPatch pkg wh o₂ pod { req with DryRun := d₂ } u).pod →
      (createPatch pkg wh o₁ pod { req with DryRun := d₁ } u).result =
        (createPatch pkg wh o₂ pod { req with DryRun := d₂ } u).result) ∧
    (∀ (d₁ d₂ : Option Bool) (o : MapOrder),
      (createPatch pkg wh o pod { req with DryRun := d₁ } u).result =
        (createPatch pkg wh o pod { req with DryRun := d₂ } u).result) := by
  have key : ∀ (d : Option Bool) (o : MapOrder),
      (createPatch pkg wh o pod { req with DryRun := d } u).pod =
        injectedPod pkg wh (pkg.rewriteHealthProbes pod).1 u (envoyBootstrapConfigName u)
          (pkg.rewriteHealthProbes pod).2 m ∧
      (createPatch pkg wh o pod { req with DryRun := d } u).result =
        pkg.marshalPatches (makePatches pkg o req
          (injectedPod pkg wh (pkg.rewriteHealthProbes pod).1 u (envoyBootstrapConfigName u)
            (pkg.rewriteHealthProbes pod).2 m)) := by
    intro d o
    rw [createPatch_of_reaching_inject pkg wh o pod { req with DryRun := d } u cert hcert
      (Or.inr ⟨secret, hboot⟩)]
    exact injectSidecar_of_metrics_ok pkg wh o _ { req with DryRun := d } u _ _ _ m hm
  refine ⟨?_, ?_, ?_, ?_, ?_⟩
  · intro d₁ d₂ o₁ o₂
    rw [(key d₁ o₁).1, (key d₂ o₂).1]
  · intro d o
    rw [(key d o).2, (key d o).1]
  · intro d o b
    rw [(key d o).2, (key d o).1]
  · intro d₁ d₂ o₁ o₂ h
    rw [(key d₁ o₁).1, (key d₂ o₂).1] at h
    rw [(key d₁ o₁).2, (key d₂ o₂).2, h]
  · intro d₁ d₂ o
    rw [(key d₁ o).2, (key d₂ o).2]

/-- C8 amended, at the scenario: under one map order the dry-run request and the request
with a nil flag return the same patch, and the mutated pods agree across map orders. -/
theorem createPatch_dryRun_same_diff_input_witness :
    (createPatch demoPackage demoWebhook 1 demoPod (demoRequest (some true)) P1).result =
      (createPatch demoPackage demoWebhook 1 demoPod (demoRequest none) P1).result ∧
    (createPatch demoPackage demoWebhook 0 demoPod (demoRequest (some true)) P1).pod =
      (createPatch demoPackage demoWebhook 1 demoPod (demoRequest (some false)) P1).pod :=
  ⟨(createPatch_dryRun_same_diff_input demoPackage demoWebhook demoPod (demoRequest none) P1
      ⟨_, "chain", "key"⟩ ⟨_, _⟩ true rfl rfl rfl).2.2.2.2 (some true) none 1,
   (createPatch_dryRun_same_diff_input demoPackage demoWebhook demoPod (demoRequest none) P1
      ⟨_, "chain", "key"⟩ ⟨_, _⟩ true rfl rfl rfl).1 (some true) (some false) 0 1⟩

/-! ## C10: the call that creates the bootstrap config -/

theorem injectSidecar_pod_spec (pkg : Package) (wh : mutatingWebhook) (order : MapOrder)
    (pod : Pod) (req : AdmissionRequest) (u : UUID) (name : String) (probes : healthProbes)
    (calls : List Call) :
    (injectSidecar pkg wh order pod req u name probes calls).pod.Spec =
      (appendSidecar pkg wh (appendVolumesAndInit pkg wh pod name) probes).Spec := by
  cases hm : wh.isMetricsEnabled req.Namespace with
  | error err => rw [(injectSidecar_of_metrics_error pkg wh order pod req u name probes calls
      err hm).2]
  | ok m =>
    rw [(injectSidecar_of_metrics_ok pkg wh order pod req u name probes calls m hm).1]
    rfl

/-- C10: for a request that is not a dry run and for which the certificate is issued,
the calls start with `IssueCertificate` for the common name
`NewCertCommonNameWithProxyID(proxyUUID, pod.Spec.ServiceAccountName, namespace)`, then
`rewriteHealthProbes` on the pod as it was given, then `createEnvoyBootstrapConfig` with the
name `envoy-bootstrap-config-` followed by `proxyUUID.String()`, the request namespace, the
controller namespace, the issued certificate and the captured probes; there is no other call
to `createEnvoyBootstrapConfig`. When the creation succeeds, the volumes of the pod at return
are those `rewriteHealthProbes` left followed by `getVolumeSpec` of that same name, and its
containers are those `rewriteHealthProbes` left followed by the container that
`getEnvoySidecarContainerSpec` builds from those same probes and the pod with the volumes
and the init container appended; both calls are recorded after the first three. Every
recorded `getVolumeSpec` call has that name and every recorded sidecar call those probes.
Two UUIDs give the same name exactly when they are equal. -/
theorem createPatch_bootstrap_config_call (pkg : Package) (wh : mutatingWebhook)
    (order : MapOrder) (pod : Pod) (req : AdmissionRequest) (u : UUID) (cert : Certificate)
    (hdry : req.DryRun ≠ some true)
    (hcert : wh.certManager.IssueCertificate
      (pkg.NewCertCommonNameWithProxyID u pod.Spec.ServiceAccountName req.Namespace)
      pkg.constants.XDSCertificateValidityPeriod = .ok cert) :
    (createPatch pkg wh order pod req u).calls.filter Call.isBootstrapConfigCall =
      [Call.createEnvoyBootstrapConfig ("envoy-bootstrap-config-" ++ u.string) req.Namespace
        wh.osmNamespace cert (pkg.rewriteHealthProbes pod).2] ∧
    (∃ rest, (createPatch pkg wh order pod req u).calls =
      [Call.IssueCertificate
          (pkg.NewCertCommonNameWithProxyID u pod.Spec.ServiceAccountName req.Namespace)
          pkg.constants.XDSCertificateValidityPeriod,
        Call.rewriteHealthProbes pod,
        Call.createEnvoyBootstrapConfig ("envoy-bootstrap-config-" ++ u.string) req.Namespace
          wh.osmNamespace cert (pkg.rewriteHealthProbes pod).2] ++ rest ∧
      (∀ secret, wh.createEnvoyBootstrapConfig ("envoy-bootstrap-config-" ++ u.string)
          req.Namespace wh.osmNamespace cert (pkg.rewriteHealthProbes pod).2 = .ok secret →
        Call.getVolumeSpec ("envoy-bootstrap-config-" ++ u.string) ∈ rest ∧
        Call.getEnvoySidecarContainerSpec
          { (pkg.rewriteHealthProbes pod).1 with
            Spec := { (pkg.rewriteHealthProbes pod).1.Spec with
              Volumes := (pkg.rewriteHealthProbes pod).1.Spec.Volumes ++
                pkg.getVolumeSpec ("envoy-bootstrap-config-" ++ u.string)
              InitContainers := (pkg.rewriteHealthProbes pod).1.Spec.InitContainers ++
                [pkg.getInitContainerSpec pkg.constants.InitContainerName wh.configurator
                  wh.configurator.GetOutboundIPRangeExclusionList
                  wh.configurator.GetOutboundPortExclusionList
                  wh.configurator.IsPrivilegedInitContainer] } }
          (pkg.rewriteHealthProbes pod).2 ∈ rest)) ∧
    (∀ secret, wh.createEnvoyBootstrapConfig ("envoy-bootstrap-config-" ++ u.string)
        req.Namespace wh.osmNamespace cert (pkg.rewriteHealthProbes pod).2 = .ok secret →
      (createPatch pkg wh order pod req u).pod.Spec.Volumes =
        (pkg.rewriteHealthProbes pod).1.Spec.Volumes ++
          pkg.getVolumeSpec ("envoy-bootstrap-config-" ++ u.string) ∧
      (createPatch pkg wh order pod req u).pod.Spec.Containers =
        (pkg.rewriteHealthProbes pod).1.Spec.Containers ++
          [pkg.getEnvoySidecarContainerSpec
            { (pkg.rewriteHealthProbes pod).1 with
              Spec := { (pkg.rewriteHealthProbes pod).1.Spec with
                Volumes := (pkg.rewriteHealthProbes pod).1.Spec.Volumes ++
                  pkg.getVolumeSpec ("envoy-bootstrap-config-" ++ u.string)
                InitContainers := (pkg.rewriteHealthProbes pod).1.Spec.InitContainers ++
                  [pkg.getInitContainerSpec pkg.constants.InitContainerName wh.configurator
                    wh.configurator.GetOutboundIPRangeExclusionList
                    wh.configurator.GetOutboundPortExclusionList
                    wh.configurator.IsPrivilegedInitContainer] } }
            wh.configurator (pkg.rewriteHealthProbes pod).2]) ∧
    (∀ name, Call.getVolumeSpec name ∈ (createPatch pkg wh order pod req u).calls →
      name = "envoy-bootstrap-config-" ++ u.string) ∧
    (∀ p probes,
      Call.getEnvoySidecarContainerSpec p probes ∈ (createPatch pkg wh order pod req u).calls →
      probes = (pkg.rewriteHealthProbes pod).2) ∧
    (∀ u₁ u₂ : UUID,
      "envoy-bootstrap-config-" ++ u₁.string = "envoy-bootstrap-config-" ++ u₂.string ↔
        u₁ = u₂) := by
  have hd := isDryRun_eq_false req hdry
  have hinj : ∀ u₁ u₂ : UUID,
      "envoy-bootstrap-config-" ++ u₁.string = "envoy-bootstrap-config-" ++ u₂.string ↔
        u₁ = u₂ := envoyBootstrapConfigName_inj
  cases hboot : wh.createEnvoyBootstrapConfig (envoyBootstrapConfigName u) req.Namespace
      wh.osmNamespace cert (pkg.rewriteHealthProbes pod).2 with
  | error err =>
    have hboot' := hboot
    unfold envoyBootstrapConfigName at hboot'
    rw [createPatch_of_bootstrap_error pkg wh order pod req u cert err hcert hd hboot]
    refine ⟨?_, ⟨[], ?_, ?_⟩, ?_, ?_, ?_, hinj⟩
    · simp [Call.isBootstrapConfigCall, List.filter, envoyBootstrapConfigName]
    · simp [envoyBootstrapConfigName]
    · intro secret hs
      rw [hboot'] at hs
      exact Except.noConfusion hs
    · intro secret hs
      rw [hboot'] at hs
      exact Except.noConfusion hs
    · intro name hn
      simp at hn
    · intro p probes hp
      simp at hp
  | ok secret =>
    rw [createPatch_of_bootstrap_ok pkg wh order pod req u cert secret hcert hd hboot,
      injectSidecar_calls]
    refine ⟨?_, ⟨_, rfl, ?_⟩, ?_, ?_, ?_, hinj⟩
    · simp [Call.isBootstrapConfigCall, List.filter, envoyBootstrapConfigName]
    · intro _ _
      refine ⟨?_, ?_⟩
      · simp [envoyBootstrapConfigName]
      · exact List.mem_cons_of_mem _ (List.mem_cons_of_mem _ (List.mem_cons_self _ _))
    · intro _ _
      have hspec := injectSidecar_pod_spec pkg wh order (pkg.rewriteHealthProbes pod).1 req u
        (envoyBootstrapConfigName u) (pkg.rewriteHealthProbes pod).2
        [Call.IssueCertificate
          (pkg.NewCertCommonNameWithProxyID u pod.Spec.ServiceAccountName req.Namespace)
          pkg.constants.XDSCertificateValidityPeriod,
         Call.rewriteHealthProbes pod,
         Call.createEnvoyBootstrapConfig (envoyBootstrapConfigName u) req.Namespace
           wh.osmNamespace cert (pkg.rewriteHealthProbes pod).2]
      rw [hspec]
      exact ⟨rfl, rfl⟩
    · intro name hn
      simp at hn
      rw [hn]; rfl
    · intro p probes hp
      simp at hp
      exact hp.2

/-- C10, at the scenario: the bootstrap config `envoy-bootstrap-config-P1` is created in
namespace `ns-1`, once; the volume added to the pod refers to that name and the sidecar
added to the pod carries the captured liveness probe; `P1` and `P2` give different names. -/
theorem createPatch_bootstrap_config_call_witness :
    (demoRequest none).DryRun ≠ some true ∧
    (createPatch demoPackage demoWebhook 0 demoPod (demoRequest none) P1).calls.filter
        Call.isBootstrapConfigCall =
      [Call.createEnvoyBootstrapConfig
        "envoy-bootstrap-config-123e4567-e89b-12d3-a456-426614174000" "ns-1" "osm-system"
        ⟨"123e4567-e89b-12d3-a456-426614174000.sa-1.ns-1", "chain", "key"⟩
        ⟨some ⟨"/healthz", 8080⟩, none, none⟩] ∧
    (createPatch demoPackage demoWebhook 0 demoPod (demoRequest none) P1).pod.Spec.Volumes =
      [⟨"data", "data-secret"⟩,
        ⟨"envoy-bootstrap-config-volume",
          "envoy-bootstrap-config-123e4567-e89b-12d3-a456-426614174000"⟩] ∧
    (createPatch demoPackage demoWebhook 0 demoPod (demoRequest none) P1).pod.Spec.Containers =
      [⟨"bookstore", "bookstore-image", some ⟨"/osm-liveness-probe", 15901⟩, none, none⟩,
        ⟨"envoy", "envoy-image", some ⟨"/healthz", 8080⟩, none, none⟩] ∧
    "envoy-bootstrap-config-" ++ P1.string ≠ "envoy-bootstrap-config-" ++ P2.string :=
  ⟨by decide,
    (createPatch_bootstrap_config_call demoPackage demoWebhook 0 demoPod (demoRequest none) P1
      ⟨_, "chain", "key"⟩ (by decide) rfl).1,
    ((createPatch_bootstrap_config_call demoPackage demoWebhook 0 demoPod (demoRequest none) P1
      ⟨_, "chain", "key"⟩ (by decide) rfl).2.2.1 ⟨_, _⟩ rfl).1,
    ((createPatch_bootstrap_config_call demoPackage demoWebhook 0 demoPod (demoRequest none) P1
      ⟨_, "chain", "key"⟩ (by decide) rfl).2.2.1 ⟨_, _⟩ rfl).2,
    fun h => absurd (((createPatch_bootstrap_config_call demoPackage demoWebhook 0 demoPod
      (demoRequest none) P1 ⟨_, "chain", "key"⟩ (by decide) rfl).2.2.2.2.2 P1 P2).mp h)
      (by decide)⟩

end Injector
